import Mathlib

/-
Shallow embedding of src/monitoring/app.py (Oracle DB monitoring dashboard).

The database driver (oracledb), the container runtime client (docker) and the
UI framework (streamlit) are external collaborators; their responses are
modelled by explicit behaviour oracles passed to each embedded function.
Each embedded function mirrors the control flow of the corresponding Python
function line by line; side effects that the claims talk about (connect
attempts, session open and close, commit) are recorded in the returned call
record.
-/

set_option autoImplicit false

namespace OracleMonitor

/-- Values held in database cells as the Python driver returns them. -/
inductive Value where
  | vInt (n : Int)
  | vStr (s : String)
  | vNull
  deriving DecidableEq, Repr

/-- Python str() of a driver value, as used by f-string interpolation. -/
def Value.pyStr : Value → String
  | .vInt n => toString n
  | .vStr s => s
  | .vNull => "None"

/-- TargetConfig: the config dicts DB1_CONFIG / DB2_CONFIG of app.py
(keys host, port, sid, pdb, user, pwd). -/
structure Config where
  host : String
  port : String
  sid : String
  pdb : String
  user : String
  pwd : String
  deriving DecidableEq, Repr

/-- The dsn string built at app.py lines 50 and 72:
f-string host : port / pdb. -/
def dsn (config : Config) : String :=
  config.host ++ ":" ++ config.port ++ "/" ++ config.pdb

/-- Outcome of cursor.execute(query) as decided by the database engine:
an exception, a statement with a column description (cursor.description
truthy, with these column names), or one without (DML/DDL/PL-SQL). -/
inductive ExecStep where
  | raiseErr (msg : String)
  | withDesc (cols : List String)
  | noDesc

/-- Behaviour oracle for one execute_query call: what the driver and the
engine do at each step the Python code can reach. -/
structure QueryBehavior where
  connect : Option String
  exec : String → ExecStep
  fetchall : Except String (List (List Value))
  commit : Option String

/-- The dict returned by execute_query: field success plus the optional
keys data, message, error (absent keys are none). -/
structure PyResult where
  success : Bool
  data : Option (List (List (String × Value)))
  message : Option String
  error : Option String
  deriving DecidableEq, Repr

/-- Python dict insertion: an existing key keeps its position and gets the
new value, a new key is appended. -/
def dictInsert (d : List (String × Value)) (k : String) (v : Value) :
    List (String × Value) :=
  if d.any (fun p => p.1 == k) then
    d.map (fun p => if p.1 == k then (k, v) else p)
  else
    d ++ [(k, v)]

/-- dict(zip(columns, row)) from app.py line 60. -/
def dictZip (cols : List String) (row : List Value) : List (String × Value) :=
  (cols.zip row).foldl (fun d p => dictInsert d p.1 p.2) []

/-- Record of one execute_query call: the returned dict plus the side
effects the call performed. -/
structure QueryCall where
  result : PyResult
  connectAttempted : Bool
  sessionOpened : Bool
  sessionClosed : Bool
  committed : Bool
  dsnUsed : String

/-- execute_query (app.py lines 49-69). The dsn is built outside the try
block; connect, execute, fetch and commit happen inside it and any exception
is caught and turned into the error dict. conn.close() is called only on the
two success paths; the except handler returns without closing. -/
def execute_query (config : Config) (query : String) (b : QueryBehavior) :
    QueryCall :=
  let d := dsn config
  match b.connect with
  | some msg =>
      { result := ⟨false, none, none, some msg⟩, connectAttempted := true,
        sessionOpened := false, sessionClosed := false, committed := false,
        dsnUsed := d }
  | none =>
    match b.exec query with
    | .raiseErr msg =>
        { result := ⟨false, none, none, some msg⟩, connectAttempted := true,
          sessionOpened := true, sessionClosed := false, committed := false,
          dsnUsed := d }
    | .withDesc cols =>
      match b.fetchall with
      | .error msg =>
          { result := ⟨false, none, none, some msg⟩, connectAttempted := true,
            sessionOpened := true, sessionClosed := false, committed := false,
            dsnUsed := d }
      | .ok rows =>
          { result := ⟨true, some (rows.map (fun row => dictZip cols row)),
              none, none⟩,
            connectAttempted := true, sessionOpened := true,
            sessionClosed := true, committed := false, dsnUsed := d }
    | .noDesc =>
      match b.commit with
      | some msg =>
          { result := ⟨false, none, none, some msg⟩, connectAttempted := true,
            sessionOpened := true, sessionClosed := false, committed := false,
            dsnUsed := d }
      | none =>
          { result := ⟨true, none,
              some "Statement executed successfully (No Output).", none⟩,
            connectAttempted := true, sessionOpened := true,
            sessionClosed := true, committed := true, dsnUsed := d }

/-- Behaviour oracle for one check_connection call: connect, the V$INSTANCE
execute and fetchone, the V$SESSION execute and fetchone. A fetchone returns
none when the query produced zero rows. -/
structure CheckBehavior where
  connect : Option String
  exec1 : Option String
  fetch1 : Except String (Option (List Value))
  exec2 : Option String
  fetch2 : Except String (Option (List Value))

/-- Details sub-dict of the Online record (keys Version, Instance, Mode,
Sessions). -/
structure Details where
  version : Value
  instanceName : Value
  mode : String
  sessions : Value
  deriving DecidableEq, Repr

/-- The dict returned by check_connection: status and color always present,
details only on the Online path, error only on the exception path. -/
structure StatusRecord where
  status : String
  color : String
  details : Option Details
  error : Option String
  deriving DecidableEq, Repr

/-- The dict built by the except handler at app.py line 86. -/
def offlineRecord (msg : String) : StatusRecord :=
  ⟨"Initializing / Offline", "orange", none, some msg⟩

/-- Record of one check_connection call: the returned dict plus the side
effects the call performed. -/
structure CheckCall where
  result : StatusRecord
  connectAttempted : Bool
  sessionOpened : Bool
  sessionClosed : Bool
  dsnUsed : String

/-- check_connection (app.py lines 71-86). Unpacking the V$INSTANCE row
raises a TypeError when fetchone returned None or a row whose arity is not 4;
subscripting the V$SESSION fetchone result raises when it is None, and an
empty row raises IndexError; every exception is caught by the except handler,
which returns the offline record without closing the connection. conn.close()
runs only on the full-success path, before the Online record is returned. -/
def check_connection (config : Config) (b : CheckBehavior) : CheckCall :=
  let d := dsn config
  match b.connect with
  | some msg =>
      ⟨offlineRecord msg, true, false, false, d⟩
  | none =>
    match b.exec1 with
    | some msg => ⟨offlineRecord msg, true, true, false, d⟩
    | none =>
      match b.fetch1 with
      | .error msg => ⟨offlineRecord msg, true, true, false, d⟩
      | .ok none =>
          ⟨offlineRecord "cannot unpack non-iterable NoneType object",
            true, true, false, d⟩
      | .ok (some [version, instanceName, status, db_status]) =>
        match b.exec2 with
        | some msg => ⟨offlineRecord msg, true, true, false, d⟩
        | none =>
          match b.fetch2 with
          | .error msg => ⟨offlineRecord msg, true, true, false, d⟩
          | .ok none =>
              ⟨offlineRecord "NoneType object is not subscriptable",
                true, true, false, d⟩
          | .ok (some []) =>
              ⟨offlineRecord "tuple index out of range", true, true, false, d⟩
          | .ok (some (session_count :: _)) =>
              ⟨⟨"Online", "green",
                some ⟨version, instanceName,
                  status.pyStr ++ " / " ++ db_status.pyStr, session_count⟩,
                none⟩,
                true, true, true, d⟩
      | .ok (some _) =>
          ⟨offlineRecord "value unpacking failed: row arity is not 4",
            true, true, false, d⟩

/-- Record of one get_container_logs call: the returned string and whether a
container-runtime call was attempted. -/
structure LogsCall where
  text : String
  attempted : Bool
  deriving DecidableEq, Repr

/-- get_container_logs (app.py lines 39-47). docker_client is the nullable
client initialised at startup (true when the socket connected); the oracle b
is the combined outcome of containers.get, logs(tail=50) and utf-8 decode,
an error carrying the exception message str(e). Both failure shapes are
returned as strings; nothing is raised. -/
def get_container_logs (docker_client : Bool) (container_name : String)
    (b : Except String String) : LogsCall :=
  if !docker_client then
    ⟨"Docker socket not connected. Cannot fetch logs.", false⟩
  else
    match b with
    | .ok logs => ⟨logs, true⟩
    | .error msg =>
        ⟨"Error reading logs for " ++ container_name ++ ": " ++ msg, true⟩

/-- Characters stripped by Python str.strip() with no argument (ASCII
whitespace: space, tab, newline, carriage return, vertical tab, form
feed). -/
def isPySpace (c : Char) : Bool :=
  (c == ' ') || (c == '\t') || (c == '\n') || (c == '\r') ||
    (c == '\x0b') || (c == '\x0c')

/-- Python query.strip() from app.py line 122. -/
def pyStrip (s : String) : String :=
  String.mk (((s.data.dropWhile isPySpace).reverse.dropWhile isPySpace).reverse)

/-- Outcome of the Run Query button handler (app.py lines 121-127):
the value of st.session_state[result_key] afterwards, whether the
empty-statement warning was shown, whether execute_query was invoked, and
how many network calls (connect attempts) the handling performed. -/
structure RunOutcome where
  newState : Option PyResult
  warned : Bool
  executed : Bool
  networkCalls : Nat
  deriving Repr

/-- The Run Query button handler (app.py lines 121-127): when query.strip()
is truthy, execute_query runs and its result replaces the stored slot;
otherwise st.warning is shown and the slot is not written. -/
def run_query_handler (config : Config) (query : String) (b : QueryBehavior)
    (stored : Option PyResult) : RunOutcome :=
  if pyStrip query ≠ "" then
    let call := execute_query config query b
    { newState := some call.result, warned := false, executed := true,
      networkCalls := if call.connectAttempted then 1 else 0 }
  else
    { newState := stored, warned := true, executed := false, networkCalls := 0 }

/-- What the query tab renders for a stored result (app.py lines 130-139). -/
inductive ResultDisplay where
  | table (rows : List (List (String × Value)))
  | okMsg (message : String)
  | errMsg (text : String)
  deriving DecidableEq, Repr

/-- The presenter branch over a stored result dict (app.py lines 132-139):
on success it shows the data when the data key is present, otherwise the
message; on failure it shows the error. A missing key raises KeyError, which
would escape to the panel boundary. -/
def display_result (res : PyResult) : Except String ResultDisplay :=
  if res.success then
    match res.data with
    | some rows => .ok (.table rows)
    | none =>
      match res.message with
      | some m => .ok (.okMsg m)
      | none => .error "KeyError: message"
  else
    match res.error with
    | some e => .ok (.errMsg ("Error: " ++ e))
    | none => .error "KeyError: error"

/-- What the status tab renders (app.py lines 95-105): the Online branch
shows the Sessions, Version and Mode metrics; the other branch shows the
warning with the status text and the error detail (Unknown when absent). -/
inductive StatusDisplay where
  | online (sessions : Value) (version : Value) (mode : String)
  | warning (status : String) (errorShown : String)
  deriving DecidableEq, Repr

/-- The status-tab branch of display_db_panel (app.py lines 94-105). Reading
the details keys in the Online branch raises KeyError when the details key is
absent. -/
def display_status (r : StatusRecord) : Except String StatusDisplay :=
  if r.status = "Online" then
    match r.details with
    | some det => .ok (.online det.sessions det.version det.mode)
    | none => .error "KeyError: details"
  else
    .ok (.warning r.status (r.error.getD "Unknown"))

/-- Behaviour of all external collaborators during one display_db_panel
call: the probe oracle, the log-fetch oracle, whether the Run Query button
was pressed with which text and engine behaviour, and the stored last result
for this target in st.session_state. -/
structure PanelBehavior where
  check : CheckBehavior
  logs : Except String String
  runPressed : Bool
  queryText : String
  query : QueryBehavior
  stored : Option PyResult

/-- The query tab of display_db_panel (app.py lines 113-139): runs the
button handler when pressed, then renders the stored result if any. Returns
the warned flag, the state slot after the tab, and what is displayed. -/
def query_tab (config : Config) (b : PanelBehavior) :
    Except String (Bool × Option PyResult × Option ResultDisplay) :=
  let after :=
    if b.runPressed then run_query_handler config b.queryText b.query b.stored
    else ⟨b.stored, false, false, 0⟩
  match after.newState with
  | none => .ok (after.warned, none, none)
  | some r =>
    match display_result r with
    | .ok shown => .ok (after.warned, some r, some shown)
    | .error e => .error e

/-- Everything one panel renders during a display cycle. -/
structure PanelOutput where
  header : String
  statusTab : StatusDisplay
  logsText : String
  warned : Bool
  shownResult : Option ResultDisplay
  deriving Repr

/-- display_db_panel (app.py lines 88-143): header, status tab (probe runs
synchronously), logs tab, query tab. Any exception escaping a tab aborts the
panel and propagates to the caller. -/
def display_db_panel (name : String) (config : Config)
    (container_name : String) (docker_client : Bool) (b : PanelBehavior) :
    Except String PanelOutput :=
  let statusRes := (check_connection config b.check).result
  match display_status statusRes with
  | .error e => .error e
  | .ok sd =>
    let lg := get_container_logs docker_client container_name b.logs
    match query_tab config b with
    | .error e => .error e
    | .ok (w, _, shown) => .ok ⟨name, sd, lg.text, w, shown⟩

/-- What one column of the main UI shows: the panel, or the st.error box of
the per-panel try/except (app.py lines 150-160). -/
inductive PanelRender where
  | rendered (out : PanelOutput)
  | errorBox (text : String)
  deriving Repr

/-- The main UI (app.py lines 148-160): each of the two columns renders its
panel inside its own try/except, so a failure in one column is converted to
an error box for that column only. -/
def render_main (name1 name2 : String) (cfg1 cfg2 : Config)
    (cn1 cn2 : String) (docker_client : Bool) (b1 b2 : PanelBehavior) :
    PanelRender × PanelRender :=
  (match display_db_panel name1 cfg1 cn1 docker_client b1 with
   | .ok o => .rendered o
   | .error e => .errorBox ("Error loading DB1 Panel: " ++ e),
   match display_db_panel name2 cfg2 cn2 docker_client b2 with
   | .ok o => .rendered o
   | .error e => .errorBox ("Error loading DB2 Panel: " ++ e))

/-- The default DB1 configuration values from app.py lines 18-25, used as a
concrete test target. -/
def testConfig : Config :=
  ⟨"oracle-db1", "1521", "ORCLCDB1", "ORCLPDB1", "SYS", "Welcome123456"⟩

/-- Success of both introspection steps of check_connection: connect, the
V$INSTANCE execute and a 4-field row from its fetchone, the V$SESSION
execute and a nonempty row from its fetchone. -/
def probeAllOk (b : CheckBehavior) : Prop :=
  b.connect = none ∧ b.exec1 = none ∧
    (∃ v i s t, b.fetch1 = .ok (some [v, i, s, t])) ∧
    b.exec2 = none ∧ (∃ c rest, b.fetch2 = .ok (some (c :: rest)))

/-- The three mutually exclusive shapes of an execute_query result dict:
tabular success, acknowledgment, failure. -/
def wellShaped (r : PyResult) : Prop :=
  (r.success = true ∧ r.data.isSome = true ∧ r.message = none ∧
      r.error = none) ∨
  (r.success = true ∧ r.data = none ∧ r.message.isSome = true ∧
      r.error = none) ∨
  (r.success = false ∧ r.data = none ∧ r.message = none ∧
      r.error.isSome = true)

lemma map_fst_zip_sublist (l : List String) (r : List Value) :
    ((l.zip r).map Prod.fst).Sublist l := by
  induction l generalizing r with
  | nil => simp
  | cons a t ih =>
    cases r with
    | nil => simp
    | cons b rt => simpa using (ih rt).cons₂ a

lemma dictInsert_append (d : List (String × Value)) (k : String) (v : Value)
    (h : ∀ q ∈ d, q.1 ≠ k) : dictInsert d k v = d ++ [(k, v)] := by
  have hany : ¬ (d.any (fun p => p.1 == k) = true) := by
    simp only [List.any_eq_true, beq_iff_eq]
    rintro ⟨p, hp, hpk⟩
    exact h p hp hpk
  simp [dictInsert, hany]

lemma foldl_dictInsert (l : List (String × Value)) :
    ∀ d : List (String × Value),
      (l.map Prod.fst).Nodup →
      (∀ p ∈ l, ∀ q ∈ d, q.1 ≠ p.1) →
      l.foldl (fun acc p => dictInsert acc p.1 p.2) d = d ++ l := by
  induction l with
  | nil => intro d _ _; simp
  | cons hd tl ih =>
    intro d hnd hdisj
    simp only [List.foldl_cons]
    have hins : dictInsert d hd.1 hd.2 = d ++ [(hd.1, hd.2)] :=
      dictInsert_append d hd.1 hd.2
        (fun q hq => hdisj hd (List.mem_cons_self hd tl) q hq)
    rw [hins]
    have hnd1 : (hd.1 :: tl.map Prod.fst).Nodup := by
      simpa using hnd
    have hnd2 : (tl.map Prod.fst).Nodup := (List.nodup_cons.1 hnd1).2
    have hfst : hd.1 ∉ tl.map Prod.fst := (List.nodup_cons.1 hnd1).1
    have hdisj2 : ∀ p ∈ tl, ∀ q ∈ d ++ [(hd.1, hd.2)], q.1 ≠ p.1 := by
      intro p hp q hq
      rcases List.mem_append.1 hq with hq1 | hq2
      · exact hdisj p (List.mem_cons_of_mem hd hp) q hq1
      · have hqe : q = (hd.1, hd.2) := by simpa using hq2
        subst hqe
        intro hcontr
        exact hfst (hcontr ▸ List.mem_map_of_mem Prod.fst hp)
    rw [ih (d ++ [(hd.1, hd.2)]) hnd2 hdisj2]
    simp

lemma dictZip_eq_zip (cols : List String) (row : List Value)
    (h : cols.Nodup) : dictZip cols row = cols.zip row := by
  unfold dictZip
  rw [foldl_dictInsert (cols.zip row) []]
  · simp
  · exact List.Nodup.sublist (map_fst_zip_sublist cols row) h
  · intro p _ q hq
    exact absurd hq (List.not_mem_nil q)

lemma execute_query_dsnUsed (config : Config) (query : String)
    (b : QueryBehavior) :
    (execute_query config query b).dsnUsed = dsn config := by
  unfold execute_query
  cases b.connect with
  | some msg => rfl
  | none =>
    cases b.exec query with
    | raiseErr msg => rfl
    | withDesc cols =>
      cases b.fetchall with
      | error m => rfl
      | ok rows => rfl
    | noDesc =>
      cases b.commit with
      | some m => rfl
      | none => rfl

lemma check_connection_dsnUsed (config : Config) (b : CheckBehavior) :
    (check_connection config b).dsnUsed = dsn config := by
  unfold check_connection
  cases b.connect with
  | some msg => rfl
  | none =>
    cases b.exec1 with
    | some msg => rfl
    | none =>
      cases b.fetch1 with
      | error msg => rfl
      | ok o1 =>
        cases o1 with
        | none => rfl
        | some row1 =>
          rcases row1 with _ | ⟨v, _ | ⟨i, _ | ⟨s, _ | ⟨t, _ | ⟨x, rest⟩⟩⟩⟩⟩
          · rfl
          · rfl
          · rfl
          · rfl
          · cases b.exec2 with
            | some msg => rfl
            | none =>
              cases b.fetch2 with
              | error msg => rfl
              | ok o2 =>
                cases o2 with
                | none => rfl
                | some row2 => cases row2 with
                  | nil => rfl
                  | cons c rest2 => rfl
          · rfl

/-- C1 (code_bug evidence): at a concrete failing input — connect succeeds
and the statement (or the first introspection query) then raises — both
execute_query and check_connection return from the except handler with the
opened session never closed: no close runs on the exception exit path. -/
theorem session_leaked_on_midcall_failure :
    ((execute_query testConfig "SELECT * FROM NO_SUCH_TABLE"
        ⟨none, fun _ => .raiseErr "ORA-00942: table or view does not exist",
          .ok [], none⟩).sessionOpened = true ∧
      (execute_query testConfig "SELECT * FROM NO_SUCH_TABLE"
        ⟨none, fun _ => .raiseErr "ORA-00942: table or view does not exist",
          .ok [], none⟩).sessionClosed = false) ∧
    ((check_connection testConfig
        ⟨none, some "ORA-01034: ORACLE not available", .ok none, none,
          .ok none⟩).sessionOpened = true ∧
      (check_connection testConfig
        ⟨none, some "ORA-01034: ORACLE not available", .ok none, none,
          .ok none⟩).sessionClosed = false) :=
  ⟨⟨rfl, rfl⟩, ⟨rfl, rfl⟩⟩

/-- C3 (counterexample): execute_query itself performs no empty-statement
check — called on the empty string it still reaches oracledb.connect (a
network call) and surfaces the driver error, not an EmptyInput rejection. -/
theorem execute_query_empty_input_still_connects :
    pyStrip "" = "" ∧
    (execute_query testConfig ""
        ⟨some "ORA-12541: TNS no listener", fun _ => .noDesc, .ok [],
          none⟩).connectAttempted = true ∧
    (execute_query testConfig ""
        ⟨some "ORA-12541: TNS no listener", fun _ => .noDesc, .ok [],
          none⟩).result.error = some "ORA-12541: TNS no listener" :=
  ⟨rfl, rfl, rfl⟩

/-- C3 (amended): the empty/whitespace-only rejection lives in the panel's
Run Query handler, not in execute_query: when the statement strips to the
empty string the handler performs zero network calls, never invokes
execute_query, and shows the warning. -/
theorem run_handler_blank_no_network (config : Config) (query : String)
    (b : QueryBehavior) (stored : Option PyResult)
    (h : pyStrip query = "") :
    (run_query_handler config query b stored).networkCalls = 0 ∧
    (run_query_handler config query b stored).executed = false ∧
    (run_query_handler config query b stored).warned = true := by
  simp [run_query_handler, h]

/-- C3 witness: the handler on a whitespace-only statement at concrete
inputs. -/
theorem run_handler_blank_no_network_witness :
    pyStrip " \t\n " = "" ∧
    (run_query_handler testConfig " \t\n "
        ⟨none, fun _ => .noDesc, .ok [], none⟩ none).networkCalls = 0 ∧
    (run_query_handler testConfig " \t\n "
        ⟨none, fun _ => .noDesc, .ok [], none⟩ none).executed = false ∧
    (run_query_handler testConfig " \t\n "
        ⟨none, fun _ => .noDesc, .ok [], none⟩ none).warned = true :=
  ⟨rfl,
    (run_handler_blank_no_network testConfig " \t\n "
      ⟨none, fun _ => .noDesc, .ok [], none⟩ none rfl).1,
    (run_handler_blank_no_network testConfig " \t\n "
      ⟨none, fun _ => .noDesc, .ok [], none⟩ none rfl).2.1,
    (run_handler_blank_no_network testConfig " \t\n "
      ⟨none, fun _ => .noDesc, .ok [], none⟩ none rfl).2.2⟩

/-- C5 (counterexample): the acknowledgment message the code returns carries
a trailing period, so it is not the string the claim quotes. -/
theorem acknowledged_message_not_as_claimed :
    (execute_query testConfig "TRUNCATE TABLE T"
        ⟨none, fun _ => .noDesc, .ok [], none⟩).result.success = true ∧
    (execute_query testConfig "TRUNCATE TABLE T"
        ⟨none, fun _ => .noDesc, .ok [], none⟩).result.message =
      some "Statement executed successfully (No Output)." ∧
    (execute_query testConfig "TRUNCATE TABLE T"
        ⟨none, fun _ => .noDesc, .ok [], none⟩).result.message ≠
      some "Statement executed successfully (No Output)" :=
  ⟨rfl, rfl, by decide⟩

/-- C5 (amended): a statement that executes without a column description
leads to an explicit commit, a session close, and the acknowledgment dict
with message (trailing period included) and no data — never
success-with-rows. -/
theorem no_output_statement_acknowledged (config : Config) (query : String)
    (b : QueryBehavior) (h1 : b.connect = none)
    (h2 : b.exec query = .noDesc) (h3 : b.commit = none) :
    execute_query config query b =
      ⟨⟨true, none, some "Statement executed successfully (No Output).",
          none⟩,
        true, true, true, true, dsn config⟩ := by
  obtain ⟨bc, be, bf, bcm⟩ := b
  simp only at h1 h2 h3
  subst h1
  subst h3
  simp [execute_query, h2]

/-- C5 witness: a successful DDL statement at concrete inputs. -/
theorem no_output_statement_acknowledged_witness :
    execute_query testConfig "CREATE TABLE T (X NUMBER)"
        ⟨none, fun _ => .noDesc, .ok [], none⟩ =
      ⟨⟨true, none, some "Statement executed successfully (No Output).",
          none⟩,
        true, true, true, true, "oracle-db1:1521/ORCLPDB1"⟩ :=
  no_output_statement_acknowledged testConfig "CREATE TABLE T (X NUMBER)"
    ⟨none, fun _ => .noDesc, .ok [], none⟩ rfl rfl rfl

/-- C6: every execute_query and check_connection call connects with the dsn
string host, colon, port, slash, pdb service name — character for character
nothing else. -/
theorem dsn_exact_format (config : Config) (query : String)
    (bq : QueryBehavior) (bc : CheckBehavior) :
    (execute_query config query bq).dsnUsed =
        config.host ++ ":" ++ config.port ++ "/" ++ config.pdb ∧
    (check_connection config bc).dsnUsed =
        config.host ++ ":" ++ config.port ++ "/" ++ config.pdb ∧
    (execute_query config query bq).dsnUsed.data =
        config.host.data ++ [':'] ++ config.port.data ++ ['/'] ++
          config.pdb.data := by
  refine ⟨execute_query_dsnUsed config query bq,
    check_connection_dsnUsed config bc, ?_⟩
  rw [execute_query_dsnUsed config query bq]
  simp [dsn]

/-- C7: get_container_logs never raises; with no docker client it returns
the fixed sentinel without attempting a runtime call, and on a lookup or
decode error it returns a string that embeds the container name and the
underlying message. -/
theorem get_container_logs_spec (container_name msg logsText : String) :
    get_container_logs false container_name (.error msg) =
        ⟨"Docker socket not connected. Cannot fetch logs.", false⟩ ∧
    get_container_logs false container_name (.ok logsText) =
        ⟨"Docker socket not connected. Cannot fetch logs.", false⟩ ∧
    get_container_logs true container_name (.ok logsText) =
        ⟨logsText, true⟩ ∧
    (get_container_logs true container_name (.error msg)).text =
        "Error reading logs for " ++ container_name ++ ": " ++ msg ∧
    (∃ p q, (get_container_logs true container_name (.error msg)).text =
        p ++ container_name ++ q) ∧
    (∃ p q, (get_container_logs true container_name (.error msg)).text =
        p ++ msg ++ q) := by
  refine ⟨rfl, rfl, rfl, rfl,
    ⟨"Error reading logs for ", ": " ++ msg, ?_⟩,
    ⟨"Error reading logs for " ++ container_name ++ ": ", "", ?_⟩⟩
  · simp [get_container_logs, String.append_assoc]
  · simp [get_container_logs, String.append_assoc]

/-- C9: every execute_query result dict has exactly one of the three tagged
shapes, and the presenter branch over it always renders (no KeyError is
possible). -/
theorem execute_query_result_shape (config : Config) (query : String)
    (b : QueryBehavior) :
    wellShaped (execute_query config query b).result ∧
    ∃ shown,
      display_result (execute_query config query b).result = .ok shown := by
  obtain ⟨bc, be, bf, bcm⟩ := b
  cases bc with
  | some msg =>
      exact ⟨Or.inr (Or.inr ⟨rfl, rfl, rfl, rfl⟩), ⟨_, rfl⟩⟩
  | none =>
    cases hbe : be query with
    | raiseErr msg =>
        refine ⟨?_, ?_⟩ <;> simp only [execute_query, hbe]
        · exact Or.inr (Or.inr ⟨rfl, rfl, rfl, rfl⟩)
        · exact ⟨_, rfl⟩
    | withDesc cols =>
      cases bf with
      | error msg =>
          refine ⟨?_, ?_⟩ <;> simp only [execute_query, hbe]
          · exact Or.inr (Or.inr ⟨rfl, rfl, rfl, rfl⟩)
          · exact ⟨_, rfl⟩
      | ok rows =>
          refine ⟨?_, ?_⟩ <;> simp only [execute_query, hbe]
          · exact Or.inl ⟨rfl, rfl, rfl, rfl⟩
          · exact ⟨_, rfl⟩
    | noDesc =>
      cases bcm with
      | some msg =>
          refine ⟨?_, ?_⟩ <;> simp only [execute_query, hbe]
          · exact Or.inr (Or.inr ⟨rfl, rfl, rfl, rfl⟩)
          · exact ⟨_, rfl⟩
      | none =>
          refine ⟨?_, ?_⟩ <;> simp only [execute_query, hbe]
          · exact Or.inr (Or.inl ⟨rfl, rfl, rfl, rfl⟩)
          · exact ⟨_, rfl⟩

/-- C10: running with a statement that strips to empty leaves the stored
last-result slot for the target exactly as it was while the warning is
shown. -/
theorem run_handler_blank_preserves_slot (config : Config) (query : String)
    (b : QueryBehavior) (stored : Option PyResult)
    (h : pyStrip query = "") :
    (run_query_handler config query b stored).newState = stored ∧
    (run_query_handler config query b stored).warned = true := by
  simp [run_query_handler, h]

/-- C10 witness: a whitespace-only run at concrete inputs with a previously
stored result, which persists unchanged. -/
theorem run_handler_blank_preserves_slot_witness :
    pyStrip "   " = "" ∧
    (run_query_handler testConfig "   "
        ⟨none, fun _ => .noDesc, .ok [], none⟩
        (some ⟨true, none, some "old", none⟩)).newState =
      some ⟨true, none, some "old", none⟩ ∧
    (run_query_handler testConfig "   "
        ⟨none, fun _ => .noDesc, .ok [], none⟩
        (some ⟨true, none, some "old", none⟩)).warned = true :=
  ⟨rfl,
    (run_handler_blank_preserves_slot testConfig "   "
      ⟨none, fun _ => .noDesc, .ok [], none⟩
      (some ⟨true, none, some "old", none⟩) rfl).1,
    (run_handler_blank_preserves_slot testConfig "   "
      ⟨none, fun _ => .noDesc, .ok [], none⟩
      (some ⟨true, none, some "old", none⟩) rfl).2⟩

/-- C4: a statement with a column description yields the success dict whose
data is exactly the fetched rows zipped in order with the reported column
names (original case, engine column order and row order preserved), the
session closed and no commit. Column names are assumed pairwise distinct, as
a name-to-value mapping presupposes. -/
theorem select_rows_zipped (config : Config) (query : String)
    (b : QueryBehavior) (cols : List String) (rows : List (List Value))
    (h1 : b.connect = none) (h2 : b.exec query = .withDesc cols)
    (h3 : b.fetchall = .ok rows) (h4 : cols.Nodup) :
    execute_query config query b =
      ⟨⟨true, some (rows.map (fun row => cols.zip row)), none, none⟩,
        true, true, true, false, dsn config⟩ := by
  obtain ⟨bc, be, bf, bcm⟩ := b
  simp only at h1 h2 h3
  subst h1
  subst h3
  simp only [execute_query, h2]
  have hzip : ∀ row : List Value, dictZip cols row = cols.zip row :=
    fun row => dictZip_eq_zip cols row h4
  simp [hzip]

/-- C4 witness: SELECT 1 AS X FROM DUAL — the engine reports column X and
one row (1), and the result is success with the single mapping X to 1. -/
theorem select_rows_zipped_witness :
    (["X"] : List String).Nodup ∧
    execute_query testConfig "SELECT 1 AS X FROM DUAL"
        ⟨none, fun _ => .withDesc ["X"], .ok [[Value.vInt 1]], none⟩ =
      ⟨⟨true, some [[("X", Value.vInt 1)]], none, none⟩,
        true, true, true, false, "oracle-db1:1521/ORCLPDB1"⟩ :=
  ⟨by decide,
    select_rows_zipped testConfig "SELECT 1 AS X FROM DUAL"
      ⟨none, fun _ => .withDesc ["X"], .ok [[Value.vInt 1]], none⟩
      ["X"] [[Value.vInt 1]] rfl rfl rfl (by decide)⟩

/-- C2: check_connection is total (the except handler catches every failure
into the returned dict), its record is Online exactly when every step of
both introspection queries succeeded — including that a zero-row V$INSTANCE
fetch surfaces as a failure — Online records carry populated details and no
error, and every non-Online record is the offline dict with no details and
the failure message set. -/
theorem probe_reachable_iff (config : Config) (b : CheckBehavior) :
    ((check_connection config b).result.status = "Online" ↔ probeAllOk b) ∧
    ((check_connection config b).result.status = "Online" →
      (check_connection config b).result.details.isSome = true ∧
      (check_connection config b).result.error = none) ∧
    ((check_connection config b).result.status ≠ "Online" →
      (check_connection config b).result.status = "Initializing / Offline" ∧
      (check_connection config b).result.color = "orange" ∧
      (check_connection config b).result.details = none ∧
      (check_connection config b).result.error.isSome = true) := by
  obtain ⟨bc, be1, bf1, be2, bf2⟩ := b
  cases bc with
  | some msg => simp [check_connection, probeAllOk, offlineRecord]
  | none =>
  cases be1 with
  | some msg => simp [check_connection, probeAllOk, offlineRecord]
  | none =>
  cases bf1 with
  | error msg => simp [check_connection, probeAllOk, offlineRecord]
  | ok o1 =>
  cases o1 with
  | none => simp [check_connection, probeAllOk, offlineRecord]
  | some row1 =>
  rcases row1 with _ | ⟨v, _ | ⟨i, _ | ⟨s, _ | ⟨t, _ | ⟨x, rest⟩⟩⟩⟩⟩
  · simp [check_connection, probeAllOk, offlineRecord]
  · simp [check_connection, probeAllOk, offlineRecord]
  · simp [check_connection, probeAllOk, offlineRecord]
  · simp [check_connection, probeAllOk, offlineRecord]
  · cases be2 with
    | some msg => simp [check_connection, probeAllOk, offlineRecord]
    | none =>
      cases bf2 with
      | error msg => simp [check_connection, probeAllOk, offlineRecord]
      | ok o2 =>
        cases o2 with
        | none => simp [check_connection, probeAllOk, offlineRecord]
        | some row2 =>
          cases row2 with
          | nil => simp [check_connection, probeAllOk, offlineRecord]
          | cons c rest2 =>
              refine ⟨⟨fun _ => ⟨rfl, rfl, ⟨v, i, s, t, rfl⟩, rfl,
                ⟨c, rest2, rfl⟩⟩, fun _ => rfl⟩,
                fun _ => ⟨rfl, rfl⟩, fun hne => absurd rfl hne⟩
  · simp [check_connection, probeAllOk, offlineRecord]

/-- C8: each target panel renders independently inside its own try/except:
with target one fully reachable and target two refused at connect, the main
UI still renders panel one with its metrics while panel two renders the
warning state carrying the connection error, and panel one's rendering does
not depend on target two's behaviour at all. -/
theorem panel_isolation (name1 name2 cn1 cn2 : String) (cfg1 cfg2 : Config)
    (dc : Bool) (b1 b2 : PanelBehavior) (v i s t c : Value)
    (rest : List Value) (msg : String)
    (h1c : b1.check.connect = none) (h1e1 : b1.check.exec1 = none)
    (h1f1 : b1.check.fetch1 = .ok (some [v, i, s, t]))
    (h1e2 : b1.check.exec2 = none)
    (h1f2 : b1.check.fetch2 = .ok (some (c :: rest)))
    (h1r : b1.runPressed = false) (h1s : b1.stored = none)
    (h2c : b2.check.connect = some msg)
    (h2r : b2.runPressed = false) (h2s : b2.stored = none) :
    (render_main name1 name2 cfg1 cfg2 cn1 cn2 dc b1 b2).1 =
      .rendered ⟨name1,
        .online c v (s.pyStr ++ " / " ++ t.pyStr),
        (get_container_logs dc cn1 b1.logs).text, false, none⟩ ∧
    (render_main name1 name2 cfg1 cfg2 cn1 cn2 dc b1 b2).2 =
      .rendered ⟨name2, .warning "Initializing / Offline" msg,
        (get_container_logs dc cn2 b2.logs).text, false, none⟩ ∧
    (∀ b2x : PanelBehavior,
      (render_main name1 name2 cfg1 cfg2 cn1 cn2 dc b1 b2x).1 =
        (render_main name1 name2 cfg1 cfg2 cn1 cn2 dc b1 b2).1) := by
  obtain ⟨ch1, lg1, rp1, qt1, q1, st1⟩ := b1
  obtain ⟨c1, e11, f11, e12, f12⟩ := ch1
  obtain ⟨ch2, lg2, rp2, qt2, q2, st2⟩ := b2
  obtain ⟨c2, e21, f21, e22, f22⟩ := ch2
  simp only at h1c h1e1 h1f1 h1e2 h1f2 h1r h1s h2c h2r h2s
  subst h1c
  subst h1e1
  subst h1f1
  subst h1e2
  subst h1f2
  subst h1r
  subst h1s
  subst h2c
  subst h2r
  subst h2s
  exact ⟨rfl, rfl, fun _ => rfl⟩

/-- C8 witness: concrete configs and behaviours — target one online with
version 19.3.0.0.0 and 42 sessions, target two refused with an ORA-12541
listener error. -/
theorem panel_isolation_witness :
    (render_main "Database 1" "Database 2" testConfig
        ⟨"oracle-db2", "1521", "ORCLCDB2", "ORCLPDB2", "SYS",
          "Welcome123456"⟩
        "oracle-db1" "oracle-db2" true
        ⟨⟨none, none,
            .ok (some [Value.vStr "19.3.0.0.0", Value.vStr "ORCLCDB1",
              Value.vStr "OPEN", Value.vStr "ACTIVE"]),
            none, .ok (some [Value.vInt 42])⟩,
          .ok "db1 log tail", false, "", ⟨none, fun _ => .noDesc, .ok [],
            none⟩, none⟩
        ⟨⟨some "ORA-12541: TNS no listener", none, .ok none, none,
            .ok none⟩,
          .ok "db2 log tail", false, "", ⟨none, fun _ => .noDesc, .ok [],
            none⟩, none⟩).1 =
      .rendered ⟨"Database 1",
        .online (Value.vInt 42) (Value.vStr "19.3.0.0.0") "OPEN / ACTIVE",
        "db1 log tail", false, none⟩ ∧
    (render_main "Database 1" "Database 2" testConfig
        ⟨"oracle-db2", "1521", "ORCLCDB2", "ORCLPDB2", "SYS",
          "Welcome123456"⟩
        "oracle-db1" "oracle-db2" true
        ⟨⟨none, none,
            .ok (some [Value.vStr "19.3.0.0.0", Value.vStr "ORCLCDB1",
              Value.vStr "OPEN", Value.vStr "ACTIVE"]),
            none, .ok (some [Value.vInt 42])⟩,
          .ok "db1 log tail", false, "", ⟨none, fun _ => .noDesc, .ok [],
            none⟩, none⟩
        ⟨⟨some "ORA-12541: TNS no listener", none, .ok none, none,
            .ok none⟩,
          .ok "db2 log tail", false, "", ⟨none, fun _ => .noDesc, .ok [],
            none⟩, none⟩).2 =
      .rendered ⟨"Database 2",
        .warning "Initializing / Offline" "ORA-12541: TNS no listener",
        "db2 log tail", false, none⟩ :=
  ⟨(panel_isolation "Database 1" "Database 2" "oracle-db1" "oracle-db2"
      testConfig
      ⟨"oracle-db2", "1521", "ORCLCDB2", "ORCLPDB2", "SYS", "Welcome123456"⟩
      true
      ⟨⟨none, none,
          .ok (some [Value.vStr "19.3.0.0.0", Value.vStr "ORCLCDB1",
            Value.vStr "OPEN", Value.vStr "ACTIVE"]),
          none, .ok (some [Value.vInt 42])⟩,
        .ok "db1 log tail", false, "", ⟨none, fun _ => .noDesc, .ok [],
          none⟩, none⟩
      ⟨⟨some "ORA-12541: TNS no listener", none, .ok none, none, .ok none⟩,
        .ok "db2 log tail", false, "", ⟨none, fun _ => .noDesc, .ok [],
          none⟩, none⟩
      (Value.vStr "19.3.0.0.0") (Value.vStr "ORCLCDB1") (Value.vStr "OPEN")
      (Value.vStr "ACTIVE") (Value.vInt 42) [] "ORA-12541: TNS no listener"
      rfl rfl rfl rfl rfl rfl rfl rfl rfl rfl).1,
    (panel_isolation "Database 1" "Database 2" "oracle-db1" "oracle-db2"
      testConfig
      ⟨"oracle-db2", "1521", "ORCLCDB2", "ORCLPDB2", "SYS", "Welcome123456"⟩
      true
      ⟨⟨none, none,
          .ok (some [Value.vStr "19.3.0.0.0", Value.vStr "ORCLCDB1",
            Value.vStr "OPEN", Value.vStr "ACTIVE"]),
          none, .ok (some [Value.vInt 42])⟩,
        .ok "db1 log tail", false, "", ⟨none, fun _ => .noDesc, .ok [],
          none⟩, none⟩
      ⟨⟨some "ORA-12541: TNS no listener", none, .ok none, none, .ok none⟩,
        .ok "db2 log tail", false, "", ⟨none, fun _ => .noDesc, .ok [],
          none⟩, none⟩
      (Value.vStr "19.3.0.0.0") (Value.vStr "ORCLCDB1") (Value.vStr "OPEN")
      (Value.vStr "ACTIVE") (Value.vInt 42) [] "ORA-12541: TNS no listener"
      rfl rfl rfl rfl rfl rfl rfl rfl rfl rfl).2.1⟩

end OracleMonitor
